import Mathlib

/-!
Shallow embedding of the i3widgets status-line formatter (src/main.rs).

Modelling conventions:
* Each Rust function that runs an external command is modelled as a pure
  function taking the command's decoded stdout text as a `String` argument.
* `anyhow::Result` is modelled as `Except String`; `.ok_or_else(|| anyhow!(m))`
  is `orErr · m`.
* A Rust panic (`.unwrap()` on `None` or on a failed parse) is modelled as
  `Option` with `none` standing for the panic: no structured error value is
  produced.
* Rust `f64` values are modelled as exact rationals `ℚ`; binary floating-point
  rounding is not modelled.  `str::parse::<f64>` is modelled for plain decimal
  literals (optional sign, digits, optional fraction); exponent/inf/NaN forms
  are out of scope of the claims.
* Rust `u64` arithmetic wraps: products are taken `% 2 ^ 64` (release-profile
  two's-complement wrapping; a debug build would panic at the same inputs, and
  either way the unbounded arithmetic identities of the claims fail there).
* `str::lines`, `split_whitespace`, `trim_start`, `trim`, `starts_with` and
  substring `contains` are modelled by structural recursion over the
  character list, with ASCII whitespace, which covers every input the claims
  mention.
-/

unseal Rat.mul Rat.inv Rat.add Rat.sub

set_option maxRecDepth 16000

/-- ASCII whitespace, the fragment of Rust `char::is_whitespace` relevant to
the claims. -/
def wsChar (c : Char) : Bool :=
  c == ' ' || c == '\t' || c == '\n' || c == '\r'

/-- Split a character list at every occurrence of `sep`, keeping empty
pieces. -/
def splitOnChar (sep : Char) : List Char → List (List Char)
  | [] => [[]]
  | c :: rest =>
    match splitOnChar sep rest with
    | [] => [[c]]
    | p :: ps => if c == sep then [] :: p :: ps else (c :: p) :: ps

/-- Strip one trailing carriage return (what `str::lines` does to a
newline-terminated piece). -/
def stripCR (p : List Char) : List Char :=
  if p.getLast? == some '\r' then p.dropLast else p

/-- Post-process the `\n`-split pieces: drop a final empty piece (the
trailing line terminator is optional) and strip `\r` from terminated
pieces. -/
def linesAux : List (List Char) → List (List Char)
  | [] => []
  | [last] => if last.isEmpty then [] else [last]
  | p :: rest => stripCR p :: linesAux rest

/-- Model of Rust `str::lines`. -/
def rustLines (s : String) : List String :=
  (linesAux (splitOnChar '\n' s.toList)).map List.asString

/-- Accumulating splitter for `split_whitespace`: emits maximal nonempty runs
of non-whitespace characters. -/
def fieldsAux : List Char → List Char → List (List Char)
  | [], acc => if acc.isEmpty then [] else [acc.reverse]
  | c :: rest, acc =>
    if wsChar c then
      if acc.isEmpty then fieldsAux rest [] else acc.reverse :: fieldsAux rest []
    else fieldsAux rest (c :: acc)

/-- Model of Rust `str::split_whitespace`, as the list of fields. -/
def splitWs (s : String) : List String :=
  (fieldsAux s.toList []).map List.asString

/-- Model of Rust `str::trim_start`. -/
def strTrimLeft (s : String) : String :=
  (s.toList.dropWhile wsChar).asString

/-- Model of Rust `str::trim`. -/
def strTrim (s : String) : String :=
  (((s.toList.dropWhile wsChar).reverse.dropWhile wsChar).reverse).asString

/-- Model of Rust `str::starts_with` with a string pattern. -/
def strStartsWith (s pre : String) : Bool :=
  pre.toList.isPrefixOf s.toList

/-- Substring search on character lists. -/
def charsContains (needle : List Char) : List Char → Bool
  | [] => needle.isEmpty
  | c :: rest => needle.isPrefixOf (c :: rest) || charsContains needle rest

/-- Model of Rust `str::contains` with a string pattern. -/
def containsSubstr (hay needle : String) : Bool :=
  charsContains needle.toList hay.toList

/-- Decimal digits to the natural number they denote. -/
def natOfDigits (cs : List Char) : Nat :=
  cs.foldl (fun acc c => 10 * acc + (c.toNat - '0'.toNat)) 0

/-- The digit-accumulation loop of Rust `from_str_radix` for `u64`: each
character is first checked to be a digit (`InvalidDigit` otherwise), then
accumulated with an overflow check (`PosOverflow`), left to right. -/
def parseU64Chars : List Char → Nat → Except String Nat
  | [], acc => Except.ok acc
  | c :: rest, acc =>
    if c.isDigit then
      let acc2 := 10 * acc + (c.toNat - '0'.toNat)
      if acc2 < 2 ^ 64 then parseU64Chars rest acc2
      else Except.error "number too large to fit in target type"
    else Except.error "invalid digit found in string"

/-- Model of Rust `str::parse::<u64>` with its `ParseIntError` `Display`
messages: empty input is `Empty`, a lone sign is `InvalidDigit`, an optional
leading `+` is stripped, and the digit loop reports `InvalidDigit` or
`PosOverflow` at the first offending character. -/
def parseU64E (s : String) : Except String Nat :=
  match s.toList with
  | [] => Except.error "cannot parse integer from empty string"
  | ['+'] => Except.error "invalid digit found in string"
  | '+' :: rest => parseU64Chars rest 0
  | cs => parseU64Chars cs 0

/-- The `.parse::<u64>().unwrap()` view of the same parse: any failure is the
panic (`none`). -/
def parseU64 (s : String) : Option Nat :=
  (parseU64E s).toOption

/-- Model of Rust `str::parse::<f64>` on plain decimal literals, with the
value kept as an exact rational. -/
def parseF64 (s : String) : Option ℚ :=
  let signed : ℚ × List Char := match s.toList with
    | '-' :: r => (-1, r)
    | '+' :: r => (1, r)
    | r => (1, r)
  match splitOnChar '.' signed.2 with
  | [ip] =>
    if ip ≠ [] ∧ ip.all Char.isDigit then some (signed.1 * natOfDigits ip) else none
  | [ip, fp] =>
    if (ip ≠ [] ∨ fp ≠ []) ∧ ip.all Char.isDigit ∧ fp.all Char.isDigit then
      some (signed.1 * ((natOfDigits ip : ℚ) + (natOfDigits fp : ℚ) / (10 : ℚ) ^ fp.length))
    else none
  | _ => none

/-- Model of `Option::ok_or_else(|| anyhow!(msg))`. -/
def orErr {α : Type} : Option α → String → Except String α
  | some a, _ => Except.ok a
  | none, msg => Except.error msg

instance exceptDecEq {ε α : Type} [DecidableEq ε] [DecidableEq α] :
    DecidableEq (Except ε α) := fun x y =>
  match x, y with
  | Except.ok a, Except.ok b =>
    if h : a = b then isTrue (by rw [h]) else isFalse (fun hh => h (Except.ok.inj hh))
  | Except.ok _, Except.error _ => isFalse (fun hh => Except.noConfusion hh)
  | Except.error _, Except.ok _ => isFalse (fun hh => Except.noConfusion hh)
  | Except.error e, Except.error f =>
    if h : e = f then isTrue (by rw [h]) else isFalse (fun hh => h (Except.error.inj hh))

/-- `output.lines().find(|line| line.trim_start().starts_with(pre))`. -/
def findLine (output pre : String) : Option String :=
  (rustLines output).find? (fun l => strStartsWith (strTrimLeft l) pre)

/-! ## Markup renderer (`PangoSpan`, the `pango!` macro) -/

/-- The optional style attributes of a span (`struct PangoSpan`). -/
structure PangoSpan where
  color : Option String := none
  font_family : Option String := none
  font_size : Option String := none
  weight : Option String := none
  deriving DecidableEq

/-- One `if let Some(v) = attr { write!(f, "name=\"{}\" ", v) }` step of the
`Display` implementation. -/
def attrStr (name : String) : Option String → String
  | none => ""
  | some v => name ++ "=\"" ++ v ++ "\" "

/-- The `Display` implementation for `PangoSpan`: `<span ` followed by the
supplied attributes in declaration order, then `>`. -/
def PangoSpan.render (s : PangoSpan) : String :=
  "<span " ++ attrStr "color" s.color ++ attrStr "font_family" s.font_family
    ++ attrStr "font_size" s.font_size ++ attrStr "weight" s.weight ++ ">"

/-- The `pango!` macro: the span's `Display` output, then the text fragment,
then `</span>`. -/
def pango (text : String) (s : PangoSpan) : String :=
  s.render ++ text ++ "</span>"

/-! ## Theme -/

/-- The color table (`struct Theme`). -/
structure Theme where
  foreground : String
  background : String
  black : String
  red : String
  green : String
  yellow : String
  blue : String
  magenta : String
  cyan : String
  white : String
  index_16 : String
  index_17 : String

/-- `Theme::tokyonight_normal`. -/
def Theme.tokyonight_normal : Theme where
  foreground := "#c0caf5"
  background := "#1a1b26"
  black := "#15161e"
  red := "#f7768e"
  green := "#9ece6a"
  yellow := "#e0af68"
  blue := "#7aa2f7"
  magenta := "#bb9af7"
  cyan := "#7dcfff"
  white := "#a9b1d6"
  index_16 := "#ff9e64"
  index_17 := "#db4b4b"

/-- The theme `main` constructs. -/
def theme : Theme := Theme.tokyonight_normal

/-! ## Battery (`BatteryState`, `BatteryInfo`, `get_battery_info`) -/

/-- `enum BatteryState`. -/
inductive BatteryState
  | charging
  | discharging
  | full
  deriving DecidableEq

/-- `struct BatteryInfo` (f64 fields as exact rationals). -/
structure BatteryInfo where
  energy_full : ℚ
  energy : ℚ
  time_to_empty_full : ℚ
  state : BatteryState
  deriving DecidableEq

/-- Rust `expr as i32` on an f64: truncation toward zero, saturating at the
`i32` bounds. -/
def f64AsI32 (q : ℚ) : ℤ :=
  let t : ℤ := if 0 ≤ q then ⌊q⌋ else ⌈q⌉
  if t < -2147483648 then -2147483648 else if 2147483647 < t then 2147483647 else t

/-- `BatteryInfo::percentage`: `(self.energy / self.energy_full * 100.0) as i32`. -/
def BatteryInfo.percentage (b : BatteryInfo) : ℤ :=
  f64AsI32 (b.energy / b.energy_full * 100)

/-- Whole seconds of `Duration::from_secs_f64(secs)` (the `Duration` holds
the nearest nanosecond; `as_secs` truncates). -/
def durationSecsF64 (secs : ℚ) : ℕ :=
  (⌊secs * 10 ^ 9 + 1 / 2⌋).toNat / 10 ^ 9

/-- `BatteryInfo::time_to_empty_full`, reduced to its whole seconds. -/
def BatteryInfo.time_to_empty_full_secs (b : BatteryInfo) : ℕ :=
  durationSecsF64 (b.time_to_empty_full * 3600)

/-- `format!("{:02}", n)` for the values at hand. -/
def pad2 (n : ℕ) : String :=
  if n < 10 then "0" ++ toString n else toString n

/-- `format!("{:02}:{:02}", secs / 3600, secs % 3600 / 60)`. -/
def fmtHM (secs : ℕ) : String :=
  pad2 (secs / 3600) ++ ":" ++ pad2 (secs % 3600 / 60)

/-- `BatteryInfo::time_to_empty_full_str`. -/
def BatteryInfo.time_to_empty_full_str (b : BatteryInfo) : String :=
  fmtHM b.time_to_empty_full_secs

/-- `get_battery_info`, as a function of the decoded `upower -i` output. -/
def get_battery_info (output : String) : Except String BatteryInfo :=
  orErr (findLine output "energy-full:") "energy-full not found" >>= fun lEf =>
  orErr ((splitWs lEf).get? 1) "energy-full format is invalid" >>= fun tEf =>
  orErr (parseF64 tEf) "invalid float literal" >>= fun energy_full =>
  orErr (findLine output "energy:") "energy not found" >>= fun lE =>
  orErr ((splitWs lE).get? 1) "energy format is invalid" >>= fun tE =>
  orErr (parseF64 tE) "invalid float literal" >>= fun energy =>
  orErr (findLine output "time to") "`time to \x7bempty | full\x7d` not found" >>= fun lT =>
  orErr ((splitWs lT).get? 3) "`time to \x7bempty | full\x7d` format is invalid" >>= fun tT =>
  orErr (parseF64 tT) "invalid float literal" >>= fun t0 =>
  orErr ((splitWs lT).get? 4) "`time to \x7bempty | full\x7d` format is invalid" >>= fun unit =>
  orErr (findLine output "state:") "state not found" >>= fun lS =>
  orErr ((splitWs lS).get? 1) "state format is invalid" >>= fun tS =>
  Except.ok
    { energy_full := energy_full
      energy := energy
      time_to_empty_full := if unit = "minutes" then t0 / 60 else t0
      state :=
        match tS with
        | "charging" => BatteryState.charging
        | "discharging" => BatteryState.discharging
        | _ => BatteryState.full }

/-! ## Memory (`MemoryInfo`, `get_memory_info`) -/

/-- `struct MemoryInfo` (KiB values from `free`). -/
structure MemoryInfo where
  total : ℕ
  used : ℕ
  deriving DecidableEq

/-- `MemoryInfo::total_mib`. -/
def MemoryInfo.total_mib (m : MemoryInfo) : ℕ := m.total / 1024

/-- `MemoryInfo::used_mib`. -/
def MemoryInfo.used_mib (m : MemoryInfo) : ℕ := m.used / 1024

/-- `get_memory_info`, as a function of the decoded `free` output. -/
def get_memory_info (output : String) : Except String MemoryInfo :=
  orErr ((rustLines output).get? 1) "`free` output is invalid" >>= fun line =>
  orErr ((splitWs line).get? 1) "`free` output is invalid" >>= fun t1 =>
  parseU64E t1 >>= fun total =>
  orErr ((splitWs line).get? 2) "`free` output is invalid" >>= fun t2 =>
  parseU64E t2 >>= fun used =>
  Except.ok { total := total, used := used }

/-! ## Audio volume (`mod pulseaudio`) -/

namespace pulseaudio

/-- `struct Volume` (raw u64 channel values plus the mute flag). -/
structure Volume where
  left : ℕ
  right : ℕ
  mute : Bool
  deriving DecidableEq

/-- `Volume::left_pct`: `self.left * 100 / 65530` in u64 arithmetic
(the source notes "not std::u16::MAX for some reason"). -/
def Volume.left_pct (v : Volume) : ℕ :=
  v.left * 100 % 2 ^ 64 / 65530

/-- `Volume::right_pct`. -/
def Volume.right_pct (v : Volume) : ℕ :=
  v.right * 100 % 2 ^ 64 / 65530

/-- `Volume::icon`: four loudness bands, overridden by mute. -/
def iconFor (value : ℕ) (mute : Bool) : String :=
  if mute then "🔇"
  else if value = 0 then "🔇"
  else if value ≤ 33 then "🔈"
  else if value ≤ 66 then "🔉"
  else "🔊"

/-- `Volume::left_icon`. -/
def Volume.left_icon (v : Volume) : String := iconFor v.left_pct v.mute

/-- `Volume::right_icon`. -/
def Volume.right_icon (v : Volume) : String := iconFor v.right_pct v.mute

/-- `pulseaudio::volume`, as a function of the decoded outputs of
`pactl get-sink-volume @DEFAULT_SINK@` and `pactl get-sink-mute @DEFAULT_SINK@`.
The single `split_whitespace` iterator calls `nth(2)` and then `nth(6)`, so the
two extracted tokens sit at absolute indices 2 and 9. -/
def volume (sinkOutput muteOutput : String) : Except String Volume :=
  orErr ((rustLines sinkOutput).head?) "`pactl` output is invalid" >>= fun line =>
  orErr ((splitWs line).get? 2) "`pactl` output is invalid" >>= fun tL =>
  parseU64E tL >>= fun left =>
  orErr ((splitWs line).get? 9) "`pactl` output is invalid" >>= fun tR =>
  parseU64E tR >>= fun right =>
  orErr ((rustLines muteOutput).head?) "`pactl` output is invalid" >>= fun mline =>
  Except.ok { left := left, right := right, mute := containsSubstr mline "yes" }

end pulseaudio

/-! ## Brightness (`mod brightness`) -/

namespace brightness

/-- `struct BrightnessInfo`. -/
structure BrightnessInfo where
  current : ℕ
  max : ℕ
  deriving DecidableEq

/-- `BrightnessInfo::pct`: `self.current * 100 / self.max` in u64 arithmetic.
(Nat division by zero yields 0 where Rust would panic; the parser's default
keeps `max` at 1 so the claims never reach that case.) -/
def BrightnessInfo.pct (b : BrightnessInfo) : ℕ :=
  b.current * 100 % 2 ^ 64 / b.max

/-- `BrightnessInfo::icon`: five bands. -/
def BrightnessInfo.icon (b : BrightnessInfo) : String :=
  if b.pct = 0 then "🌑"
  else if b.pct ≤ 33 then "🌒"
  else if b.pct ≤ 66 then "🌓"
  else if b.pct ≤ 99 then "🌔"
  else "🌕"

/-- The scan loop of `brightness::info`; `none` models the panic of the
`.unwrap()` calls on a matched line whose third field is absent or not a
u64. -/
def infoFold : List String → BrightnessInfo → Option BrightnessInfo
  | [], acc => some acc
  | line :: rest, acc =>
    if strStartsWith (strTrimLeft line) "Current brightness:" then
      match ((splitWs line).get? 2).bind parseU64 with
      | some v => infoFold rest { acc with current := v }
      | none => none
    else if strStartsWith (strTrimLeft line) "Max brightness:" then
      match ((splitWs line).get? 2).bind parseU64 with
      | some v => infoFold rest { acc with max := v }
      | none => none
    else infoFold rest acc

/-- `brightness::info`, as a function of the decoded `brightnessctl info`
output.  The starting record is `BrightnessInfo { current: 0, max: 1 }`
("Default max 1 to avoid div by 0"). -/
def info (output : String) : Option BrightnessInfo :=
  infoFold (rustLines output) { current := 0, max := 1 }

end brightness

/-! ## Guest listing (`mod virsh`) -/

namespace virsh

/-- `struct State`: the active and inactive vm names. -/
structure State where
  active : List String
  inactive : List String
  deriving DecidableEq

/-- The per-line loop of `virsh::list`: skip the id field, take the name and
the state, classify.  The fold processes lines in source order. -/
def listGo : List String → Except String (List String × List String)
  | [] => Except.ok ([], [])
  | line :: rest =>
    orErr ((splitWs (strTrimLeft line)).get? 1) "invalid format" >>= fun name =>
    orErr ((splitWs (strTrimLeft line)).get? 2) "invalid format" >>= fun st =>
    listGo rest >>= fun ai =>
    match st with
    | "running" => Except.ok (name :: ai.1, ai.2)
    | "shut" => Except.ok (ai.1, name :: ai.2)
    | _ => Except.ok (ai.1, ai.2)

/-- `virsh::list`, as a function of the decoded `virsh list --all` output:
trim the whole output, skip the two header lines, classify the rest. -/
def list (output : String) : Except String State :=
  listGo ((rustLines (strTrim output)).drop 2) >>= fun ai =>
  Except.ok { active := ai.1, inactive := ai.2 }

end virsh

/-! ## The battery branch of `main` -/

/-- The line printed for a successfully parsed battery. -/
def batteryLine (b : BatteryInfo) : String :=
  let icon :=
    if b.state = BatteryState.charging then "🔌"
    else if 20 ≤ b.percentage then "🔋" else "🪫"
  pango icon { font_size := some "120%" } ++ " " ++
    pango (toString b.percentage)
      { color := some theme.foreground, weight := some "ultrabold", font_size := some "110%" } ++
    pango "%" { color := some theme.white } ++ " " ++
    pango b.time_to_empty_full_str { color := some theme.white }

/-- The `Command::Battery` arm of `main`: in debug mode a parse failure is
propagated with `?`; otherwise `if let Ok(..)` swallows every failure and
prints the fixed fallback glyph, exiting successfully. -/
def batteryCommand (raw : String) (debug : Bool) : Except String String :=
  match get_battery_info raw with
  | Except.ok b => Except.ok (batteryLine b)
  | Except.error e => if debug then Except.error e else Except.ok "🔌"

/-! ## Generic lemmas about the `Except` plumbing -/

theorem bind_ok {α β : Type} {m : Except String α} {f : α → Except String β} {b : β} :
    (m >>= f) = Except.ok b ↔ ∃ a, m = Except.ok a ∧ f a = Except.ok b := by
  cases m <;> simp [Bind.bind, Except.bind]

theorem orErr_ok {α : Type} {o : Option α} {msg : String} {a : α} :
    orErr o msg = Except.ok a ↔ o = some a := by
  cases o <;> simp [orErr]

/-- Every error the computation `m` can produce lies in `msgs`. -/
def ErrIn {α : Type} (m : Except String α) (msgs : List String) : Prop :=
  ∀ e, m = Except.error e → e ∈ msgs

theorem errIn_bind {α β : Type} {m : Except String α} {f : α → Except String β}
    {msgs : List String} (hm : ErrIn m msgs) (hf : ∀ a, ErrIn (f a) msgs) :
    ErrIn (m >>= f) msgs := by
  intro e he
  cases hm2 : m with
  | error e0 =>
    rw [hm2] at he
    have h0 : e0 = e := by simpa [Bind.bind, Except.bind] using he
    exact h0 ▸ hm e0 hm2
  | ok a =>
    rw [hm2] at he
    exact hf a e (by simpa [Bind.bind, Except.bind] using he)

theorem errIn_orErr {α : Type} {o : Option α} {msg : String} {msgs : List String}
    (h : msg ∈ msgs) : ErrIn (orErr o msg) msgs := by
  intro e he
  cases o with
  | some a => exact absurd he (by simp [orErr])
  | none =>
    have h0 : msg = e := by simpa [orErr] using he
    exact h0 ▸ h

theorem errIn_ok {α : Type} {a : α} {msgs : List String} :
    ErrIn (Except.ok a) msgs := by
  intro e he
  exact absurd he (by simp)

/-! ## The fixed error-message vocabulary of each parser -/

/-- All error descriptions `get_battery_info` can produce. -/
def batteryMsgs : List String :=
  ["energy-full not found", "energy-full format is invalid",
   "energy not found", "energy format is invalid",
   "`time to \x7bempty | full\x7d` not found",
   "`time to \x7bempty | full\x7d` format is invalid",
   "state not found", "state format is invalid",
   "invalid float literal"]

/-- The `ParseIntError` `Display` descriptions a `u64` parse can produce. -/
def parseIntMsgs : List String :=
  ["invalid digit found in string", "number too large to fit in target type",
   "cannot parse integer from empty string"]

/-- All error descriptions `get_memory_info` can produce. -/
def memoryMsgs : List String :=
  "`free` output is invalid" :: parseIntMsgs

/-- All error descriptions `pulseaudio::volume` can produce. -/
def pactlMsgs : List String :=
  "`pactl` output is invalid" :: parseIntMsgs

theorem battery_errIn (s : String) : ErrIn (get_battery_info s) batteryMsgs := by
  unfold get_battery_info
  refine errIn_bind (errIn_orErr (by decide)) fun lEf => ?_
  refine errIn_bind (errIn_orErr (by decide)) fun tEf => ?_
  refine errIn_bind (errIn_orErr (by decide)) fun energy_full => ?_
  refine errIn_bind (errIn_orErr (by decide)) fun lE => ?_
  refine errIn_bind (errIn_orErr (by decide)) fun tE => ?_
  refine errIn_bind (errIn_orErr (by decide)) fun energy => ?_
  refine errIn_bind (errIn_orErr (by decide)) fun lT => ?_
  refine errIn_bind (errIn_orErr (by decide)) fun tT => ?_
  refine errIn_bind (errIn_orErr (by decide)) fun t0 => ?_
  refine errIn_bind (errIn_orErr (by decide)) fun unit => ?_
  refine errIn_bind (errIn_orErr (by decide)) fun lS => ?_
  refine errIn_bind (errIn_orErr (by decide)) fun tS => ?_
  exact errIn_ok

theorem errIn_parseU64Chars (cs : List Char) (acc : Nat) {msgs : List String}
    (h1 : "invalid digit found in string" ∈ msgs)
    (h2 : "number too large to fit in target type" ∈ msgs) :
    ErrIn (parseU64Chars cs acc) msgs := by
  induction cs generalizing acc with
  | nil => exact errIn_ok
  | cons c rest ih =>
    intro e he
    unfold parseU64Chars at he
    split at he
    · simp only [] at he
      split at he
      · exact ih _ e he
      · exact (Except.error.inj he) ▸ h2
    · exact (Except.error.inj he) ▸ h1

theorem errIn_parseU64E (t : String) {msgs : List String}
    (h1 : "invalid digit found in string" ∈ msgs)
    (h2 : "number too large to fit in target type" ∈ msgs)
    (h3 : "cannot parse integer from empty string" ∈ msgs) :
    ErrIn (parseU64E t) msgs := by
  unfold parseU64E
  split
  · exact fun e he => (Except.error.inj he) ▸ h3
  · exact fun e he => (Except.error.inj he) ▸ h1
  · exact errIn_parseU64Chars _ _ h1 h2
  · exact errIn_parseU64Chars _ _ h1 h2

theorem memory_errIn (s : String) : ErrIn (get_memory_info s) memoryMsgs := by
  unfold get_memory_info
  refine errIn_bind (errIn_orErr (by decide)) fun line => ?_
  refine errIn_bind (errIn_orErr (by decide)) fun t1 => ?_
  refine errIn_bind (errIn_parseU64E _ (by decide) (by decide) (by decide)) fun total => ?_
  refine errIn_bind (errIn_orErr (by decide)) fun t2 => ?_
  refine errIn_bind (errIn_parseU64E _ (by decide) (by decide) (by decide)) fun used => ?_
  exact errIn_ok

theorem volume_errIn (a b : String) : ErrIn (pulseaudio.volume a b) pactlMsgs := by
  unfold pulseaudio.volume
  refine errIn_bind (errIn_orErr (by decide)) fun line => ?_
  refine errIn_bind (errIn_orErr (by decide)) fun tL => ?_
  refine errIn_bind (errIn_parseU64E _ (by decide) (by decide) (by decide)) fun left => ?_
  refine errIn_bind (errIn_orErr (by decide)) fun tR => ?_
  refine errIn_bind (errIn_parseU64E _ (by decide) (by decide) (by decide)) fun right => ?_
  refine errIn_bind (errIn_orErr (by decide)) fun mline => ?_
  exact errIn_ok

theorem parseU64_eq_some {t : String} {n : Nat} (h : parseU64 t = some n) :
    parseU64E t = Except.ok n := by
  unfold parseU64 at h
  cases hp : parseU64E t with
  | error e =>
    rw [hp] at h
    simp [Except.toOption] at h
  | ok a =>
    rw [hp] at h
    simp only [Except.toOption, Option.some.injEq] at h
    rw [h]

theorem virshGo_errIn (ls : List String) : ErrIn (virsh.listGo ls) ["invalid format"] := by
  induction ls with
  | nil => exact errIn_ok
  | cons l rest ih =>
    unfold virsh.listGo
    refine errIn_bind (errIn_orErr (by decide)) fun name => ?_
    refine errIn_bind (errIn_orErr (by decide)) fun st => ?_
    refine errIn_bind ih fun ai => ?_
    intro e he
    split at he <;> exact absurd he (by simp)

theorem virsh_errIn (s : String) : ErrIn (virsh.list s) ["invalid format"] := by
  unfold virsh.list
  exact errIn_bind (virshGo_errIn _) fun ai => errIn_ok

/-! ## Claim C1 -/

/-- Claim C1, as stated, is false: the brightness parser does not return a
structured failure when a numeric conversion fails — it `.unwrap()`s (modelled
`none`, the panic) on a matched `Current brightness:` line whose third field
is not a u64. -/
theorem C1_counterexample :
    brightness.info "Current brightness: 12ab\nMax brightness: 19200" = none := by
  decide

/-- Claim C1 (amended): the battery, memory, volume and guest-listing parsers
return structured failures drawn from fixed human-readable vocabularies:
the battery parser's missing-line/missing-field messages name the specific
line or field while its failed f64 conversions give the bare `ParseFloatError`
text `invalid float literal`; the memory, volume and guest-listing parsers
use the generic per-tool descriptions plus, for failed u64 conversions, the
bare `ParseIntError` texts.  The brightness parser instead panics on a
matched line with an absent or non-numeric field, returning no error at
all. -/
theorem C1_amended :
    (∀ s e, get_battery_info s = Except.error e → e ∈ batteryMsgs) ∧
    (∀ s e, get_memory_info s = Except.error e → e ∈ memoryMsgs) ∧
    (∀ a b e, pulseaudio.volume a b = Except.error e → e ∈ pactlMsgs) ∧
    (∀ s e, virsh.list s = Except.error e → e ∈ ["invalid format"]) ∧
    brightness.info "Current brightness: abc" = none :=
  ⟨fun s e he => battery_errIn s e he, fun s e he => memory_errIn s e he,
   fun a b e he => volume_errIn a b e he, fun s e he => virsh_errIn s e he,
   by decide⟩

/-- Witness for C1: the battery parser on empty input fails with the
descriptive `energy-full not found` message, which is in the vocabulary. -/
theorem C1_witness :
    get_battery_info "" = Except.error "energy-full not found" ∧
    "energy-full not found" ∈ batteryMsgs :=
  ⟨by decide, C1_amended.1 "" "energy-full not found" (by decide)⟩

/-! ## Claim C2 -/

/-- Claim C2, as stated, is false: a present-but-malformed numeric field
(`energy-full: 12ab`) is a parse failure, and in default (non-debug) mode the
`if let Ok(..)` arm swallows it and prints the fallback glyph with a
successful exit. -/
theorem C2_counterexample :
    get_battery_info "energy-full: 12ab" = Except.error "invalid float literal" ∧
    batteryCommand "energy-full: 12ab" false = Except.ok "🔌" :=
  ⟨by decide, by decide⟩

/-- Claim C2 (amended): every battery parse failure — the malformed-numeric
case included — surfaces as a process failure in debug mode only; in default
mode it is swallowed into the fallback-glyph path like any other failure. -/
theorem C2_amended (raw e : String) (h : get_battery_info raw = Except.error e) :
    batteryCommand raw true = Except.error e ∧
    batteryCommand raw false = Except.ok "🔌" := by
  unfold batteryCommand
  rw [h]
  exact ⟨rfl, rfl⟩

/-- Witness for C2 at a malformed-numeric input. -/
theorem C2_witness :
    get_battery_info "energy-full: abc" = Except.error "invalid float literal" ∧
    batteryCommand "energy-full: abc" true = Except.error "invalid float literal" ∧
    batteryCommand "energy-full: abc" false = Except.ok "🔌" :=
  ⟨by decide, (C2_amended "energy-full: abc" "invalid float literal" (by decide)).1,
   (C2_amended "energy-full: abc" "invalid float literal" (by decide)).2⟩

/-! ## Claim C3 -/

/-- Claim C3: when no line of the battery text starts (after leading
whitespace) with `energy-full:`, default mode prints the fixed fallback glyph
and exits successfully, while debug mode exits with the failure
`energy-full not found`, whose text mentions `energy-full`. -/
theorem C3_missing_energy_full (raw : String)
    (h : ∀ l ∈ rustLines raw, strStartsWith (strTrimLeft l) "energy-full:" = false) :
    batteryCommand raw false = Except.ok "🔌" ∧
    batteryCommand raw true = Except.error "energy-full not found" ∧
    containsSubstr "energy-full not found" "energy-full" = true := by
  have hf : findLine raw "energy-full:" = none := by
    unfold findLine
    rw [List.find?_eq_none]
    intro l hl
    simp [h l hl]
  have hb : get_battery_info raw = Except.error "energy-full not found" := by
    unfold get_battery_info
    rw [hf]
    rfl
  refine ⟨?_, ?_, by decide⟩
  · unfold batteryCommand
    rw [hb]
    rfl
  · unfold batteryCommand
    rw [hb]
    rfl

/-- Witness for C3 at a text with no `energy-full:` line. -/
theorem C3_witness :
    (∀ l ∈ rustLines "no battery here", strStartsWith (strTrimLeft l) "energy-full:" = false) ∧
    batteryCommand "no battery here" false = Except.ok "🔌" ∧
    batteryCommand "no battery here" true = Except.error "energy-full not found" :=
  ⟨by decide, (C3_missing_energy_full _ (by decide)).1,
   (C3_missing_energy_full _ (by decide)).2.1⟩

/-! ## Claim C4 -/

/-- The well-formed battery fixture of the claim: a `time to empty` line
reporting 45 minutes. -/
def sampleBattery : String :=
  "energy-full: 50\nenergy: 25\ntime to empty: 45 minutes\nstate: discharging"

/-- Claim C4: whenever the battery parser succeeds and the matched `time to`
line carries numeric token `v` at field index 3 and the unit token `minutes`
at field index 4, the stored `time_to_empty_full` is `v / 60` hours, and the
duration string is rendered from that normalized value. -/
theorem C4_minutes_normalization (raw : String) (b : BatteryInfo)
    (lT tok : String) (v : ℚ)
    (hok : get_battery_info raw = Except.ok b)
    (hline : findLine raw "time to" = some lT)
    (htok : (splitWs lT).get? 3 = some tok)
    (hv : parseF64 tok = some v)
    (hunit : (splitWs lT).get? 4 = some "minutes") :
    b.time_to_empty_full = v / 60 ∧
    b.time_to_empty_full_str = fmtHM (durationSecsF64 (v / 60 * 3600)) := by
  simp only [get_battery_info, bind_ok, orErr_ok, Except.ok.injEq] at hok
  obtain ⟨lEf, h1, tEf, h2, ef, h3, lE, h4, tE, h5, en, h6, lT2, h7, tT2, h8, v2, h9,
    u2, h10, lS, h11, tS, h12, hb⟩ := hok
  rw [hline, Option.some.injEq] at h7
  subst h7
  rw [htok, Option.some.injEq] at h8
  subst h8
  rw [hv, Option.some.injEq] at h9
  subst h9
  rw [hunit, Option.some.injEq] at h10
  subst h10
  subst hb
  constructor
  · simp
  · simp [BatteryInfo.time_to_empty_full_str, BatteryInfo.time_to_empty_full_secs]

/-- Witness for C4: on the 45-minutes fixture the parser yields
`time_to_empty_full = 45 / 60 = 3 / 4` hours and the duration string
`00:45`. -/
theorem C4_witness :
    get_battery_info sampleBattery =
      Except.ok ⟨50, 25, 3 / 4, BatteryState.discharging⟩ ∧
    (⟨50, 25, 3 / 4, BatteryState.discharging⟩ : BatteryInfo).time_to_empty_full =
      (45 : ℚ) / 60 ∧
    ((45 : ℚ) / 60) = 3 / 4 ∧
    (⟨50, 25, 3 / 4, BatteryState.discharging⟩ : BatteryInfo).time_to_empty_full_str = "00:45" :=
  ⟨by decide,
   (C4_minutes_normalization sampleBattery _ "time to empty: 45 minutes" "45" 45
      (by decide) (by decide) (by decide) (by decide) (by decide)).1,
   by decide, by decide⟩

/-! ## Claim C5 -/

/-- Claim C5, as stated, is false at large raw values: the u64 product
`raw * 100` wraps (or panics in a debug build), so the percentage is not
`raw * 100 / 65530` for every raw channel value.  At `raw = 2 ^ 62` the
wrapped product is 0. -/
theorem C5_counterexample :
    (pulseaudio.Volume.mk (2 ^ 62) 0 false).left_pct = 0 ∧
    (2 ^ 62) * 100 / 65530 = 7037518721848600 ∧
    (pulseaudio.Volume.mk (2 ^ 62) 0 false).left_pct ≠ (2 ^ 62) * 100 / 65530 :=
  ⟨by decide, by decide, by decide⟩

/-- Claim C5 (amended): for every raw channel value whose product with 100
fits in a u64, the percentage is `raw * 100 / 65530` (divisor 65530, not
65535), with integer truncation. -/
theorem C5_amended (v r : ℕ) (m : Bool) (h : v * 100 < 2 ^ 64) :
    (pulseaudio.Volume.mk v r m).left_pct = v * 100 / 65530 := by
  unfold pulseaudio.Volume.left_pct
  rw [Nat.mod_eq_of_lt h]

/-- Witness for C5: the claim's concrete instances, 65530 → 100 and
32765 → 50. -/
theorem C5_witness :
    65530 * 100 < 2 ^ 64 ∧
    (pulseaudio.Volume.mk 65530 0 false).left_pct = 65530 * 100 / 65530 ∧
    (pulseaudio.Volume.mk 65530 0 false).left_pct = 100 ∧
    (pulseaudio.Volume.mk 32765 0 false).left_pct = 50 :=
  ⟨by decide, C5_amended 65530 0 false (by decide), by decide, by decide⟩

/-! ## Claim C6 -/

/-- A first line of `pactl get-sink-volume` output in the fixed template
shape, with distinct channel readings. -/
def sinkTemplateLine : String :=
  "Volume: front-left: 65530 / 100% / -0.00 dB,   front-right: 32765 / 50% / -18.06 dB"

/-- A first line of `pactl get-sink-volume` output exactly as in the source
comment. -/
def sinkCommentLine : String :=
  "Volume: front-left: 65530 / 100% / -0.00 dB,   front-right: 65530 / 100% / -0.00 dB"

/-- Claim C6, as stated, is false: on a template-shaped first line the 7th
whitespace-delimited position (index 6) holds the left dB reading `-0.00`,
which is not even a u64 token, while the right channel value the parser
returns (32765) sits at the 10th position (index 9). -/
theorem C6_counterexample :
    pulseaudio.volume sinkTemplateLine "Mute: no" =
      Except.ok (pulseaudio.Volume.mk 65530 32765 false) ∧
    (splitWs sinkTemplateLine).get? 6 = some "-0.00" ∧
    parseU64 "-0.00" = none ∧
    (splitWs sinkTemplateLine).get? 9 = some "32765" :=
  ⟨by decide, by decide, by decide, by decide⟩

/-- Claim C6 (amended): the parser extracts the numeric field at the 3rd
whitespace-delimited position (index 2) as the left raw value and the one at
the 10th position (index 9) as the right raw value — `nth(2)` and then
`nth(6)` on the same, already advanced, iterator. -/
theorem C6_amended (sinkOutput muteOutput line tL tR mline : String) (lv rv : ℕ)
    (h1 : (rustLines sinkOutput).head? = some line)
    (h2 : (splitWs line).get? 2 = some tL)
    (h3 : parseU64 tL = some lv)
    (h4 : (splitWs line).get? 9 = some tR)
    (h5 : parseU64 tR = some rv)
    (h6 : (rustLines muteOutput).head? = some mline) :
    pulseaudio.volume sinkOutput muteOutput =
      Except.ok (pulseaudio.Volume.mk lv rv (containsSubstr mline "yes")) := by
  simp only [pulseaudio.volume, h1, h2, parseU64_eq_some h3, h4, parseU64_eq_some h5, h6,
    orErr, Bind.bind, Except.bind]

/-- Witness for C6 on the source-comment template line with mute on. -/
theorem C6_witness :
    (rustLines sinkCommentLine).head? = some sinkCommentLine ∧
    (splitWs sinkCommentLine).get? 2 = some "65530" ∧
    (splitWs sinkCommentLine).get? 9 = some "65530" ∧
    pulseaudio.volume sinkCommentLine "Mute: yes" =
      Except.ok (pulseaudio.Volume.mk 65530 65530 (containsSubstr "Mute: yes" "yes")) ∧
    containsSubstr "Mute: yes" "yes" = true :=
  ⟨by decide, by decide, by decide,
   C6_amended sinkCommentLine "Mute: yes" sinkCommentLine "65530" "65530" "Mute: yes"
     65530 65530 (by decide) (by decide) (by decide) (by decide) (by decide) (by decide),
   by decide⟩

/-! ## Claim C7 -/

/-- Claim C7, as stated, is false for readings with negative energy: the
`as i32` cast truncates toward zero (giving −33 at energy −1, energyFull 3)
while the floor is −34. -/
theorem C7_counterexample :
    (0 : ℚ) < 3 ∧
    (BatteryInfo.mk 3 (-1) 0 BatteryState.full).percentage = -33 ∧
    Int.floor ((-1 : ℚ) / 3 * 100) = -34 ∧
    ((-33 : ℤ) ≠ -34) :=
  ⟨by norm_num, by decide, by decide, by decide⟩

/-- Claim C7 (amended): for readings with positive `energy_full`, nonnegative
`energy`, and a quotient within i32 range, the displayed percentage is
`⌊energy / energy_full * 100⌋` — truncation and floor agree there, and no
rounding happens. -/
theorem C7_amended (b : BatteryInfo) (h1 : 0 < b.energy_full) (h2 : 0 ≤ b.energy)
    (h3 : b.energy / b.energy_full * 100 ≤ ((2147483647 : ℤ) : ℚ)) :
    b.percentage = ⌊b.energy / b.energy_full * 100⌋ := by
  simp only [BatteryInfo.percentage, f64AsI32]
  have hq : 0 ≤ b.energy / b.energy_full * 100 :=
    mul_nonneg (div_nonneg h2 (le_of_lt h1)) (by norm_num)
  rw [if_pos hq]
  have hfl : (0 : ℤ) ≤ ⌊b.energy / b.energy_full * 100⌋ := Int.floor_nonneg.mpr hq
  have hfu : ⌊b.energy / b.energy_full * 100⌋ ≤ 2147483647 := by
    have h4 := Int.floor_le_floor h3
    rwa [Int.floor_intCast] at h4
  rw [if_neg (by omega), if_neg (by omega)]

/-- The claim's first concrete reading. -/
def b95 : BatteryInfo := ⟨20, 19, 0, BatteryState.full⟩

/-- Witness for C7: at energy 19 / energyFull 20 the percentage is the floor,
namely 95; at energy 1 / energyFull 3 it is 33 (not 34). -/
theorem C7_witness :
    (0 : ℚ) < b95.energy_full ∧ (0 : ℚ) ≤ b95.energy ∧
    b95.energy / b95.energy_full * 100 ≤ ((2147483647 : ℤ) : ℚ) ∧
    b95.percentage = ⌊b95.energy / b95.energy_full * 100⌋ ∧
    b95.percentage = 95 ∧
    (BatteryInfo.mk 3 1 0 BatteryState.full).percentage = 33 :=
  ⟨by decide, by decide, by decide,
   C7_amended b95 (by decide) (by decide) (by decide),
   by decide, by decide⟩

/-! ## Claim C8 -/

/-- The name a guest line contributes to the active list: second field of the
line when its third field is `running`. -/
def runningName (l : String) : Option String :=
  match (splitWs (strTrimLeft l)).get? 1, (splitWs (strTrimLeft l)).get? 2 with
  | some n, some st => if st = "running" then some n else none
  | _, _ => none

/-- The name a guest line contributes to the inactive list: second field of
the line when its third field is `shut`. -/
def shutName (l : String) : Option String :=
  match (splitWs (strTrimLeft l)).get? 1, (splitWs (strTrimLeft l)).get? 2 with
  | some n, some st => if st = "shut" then some n else none
  | _, _ => none

theorem listGo_classifies (ls : List String) (a i : List String)
    (h : virsh.listGo ls = Except.ok (a, i)) :
    a = ls.filterMap runningName ∧ i = ls.filterMap shutName := by
  induction ls generalizing a i with
  | nil =>
    simp only [virsh.listGo, Except.ok.injEq, Prod.mk.injEq] at h
    obtain ⟨ha, hi⟩ := h
    subst ha
    subst hi
    simp
  | cons l rest ih =>
    simp only [virsh.listGo, bind_ok, orErr_ok] at h
    obtain ⟨name, hn, st, hs, ⟨a2, i2⟩, hrest, hmatch⟩ := h
    obtain ⟨ha2, hi2⟩ := ih a2 i2 hrest
    split at hmatch
    · simp only [Except.ok.injEq, Prod.mk.injEq] at hmatch
      obtain ⟨ha, hi⟩ := hmatch
      subst ha
      subst hi
      simp only [List.filterMap_cons, runningName, shutName]
      rw [hn, hs]
      simp [ha2, hi2]
    · simp only [Except.ok.injEq, Prod.mk.injEq] at hmatch
      obtain ⟨ha, hi⟩ := hmatch
      subst ha
      subst hi
      simp only [List.filterMap_cons, runningName, shutName]
      rw [hn, hs]
      simp [ha2, hi2]
    · rename_i hst1 hst2
      simp only [Except.ok.injEq, Prod.mk.injEq] at hmatch
      obtain ⟨ha, hi⟩ := hmatch
      subst ha
      subst hi
      simp only [List.filterMap_cons, runningName, shutName]
      rw [hn, hs]
      simp only []
      rw [if_neg hst1, if_neg hst2]
      simp [ha2, hi2]

/-- The guest-listing fixture of the claim: two header lines, one running
guest, one shut guest, one paused guest. -/
def sampleVirsh : String :=
  " Id Name State\n--------------\n 1 vm1 running stuff\n - vm2 shut off\n - vm3 paused now"

/-- Claim C8: whenever the guest-listing parser succeeds, the active list is
exactly the second fields of the post-header lines whose third field is
`running`, in source order, and the inactive list likewise for `shut`; lines
with any other third field contribute to neither list. -/
theorem C8_guest_classification (raw : String) (st : virsh.State)
    (h : virsh.list raw = Except.ok st) :
    st.active = ((rustLines (strTrim raw)).drop 2).filterMap runningName ∧
    st.inactive = ((rustLines (strTrim raw)).drop 2).filterMap shutName := by
  simp only [virsh.list, bind_ok] at h
  obtain ⟨⟨a, i⟩, hgo, hpack⟩ := h
  simp only [Except.ok.injEq] at hpack
  subst hpack
  exact listGo_classifies _ a i hgo

/-- Witness for C8 on the fixture: active `["vm1"]`, inactive `["vm2"]`, and
the paused guest `vm3` in neither. -/
theorem C8_witness :
    virsh.list sampleVirsh = Except.ok (virsh.State.mk ["vm1"] ["vm2"]) ∧
    (virsh.State.mk ["vm1"] ["vm2"]).active =
      ((rustLines (strTrim sampleVirsh)).drop 2).filterMap runningName ∧
    runningName " - vm3 paused now" = none ∧ shutName " - vm3 paused now" = none :=
  ⟨by decide, (C8_guest_classification sampleVirsh _ (by decide)).1, by decide, by decide⟩

/-! ## Claim C9 -/

/-- Claim C9: the renderer emits exactly the supplied attributes in the fixed
order color, font family, font size, weight (expressed as a `filterMap` over
that ordered list), omits every unsupplied attribute, and with no attributes
supplied the wrapper carries no attribute text: the output is literally
`<span >` + fragment + `</span>`. -/
theorem C9_span_attribute_order (c f s w : Option String) (text : String) :
    pango text ⟨c, f, s, w⟩ =
      "<span " ++
        String.join
          ([("color", c), ("font_family", f), ("font_size", s), ("weight", w)].filterMap
            (fun p => p.2.map (fun v => p.1 ++ "=\"" ++ v ++ "\" "))) ++
        (">" ++ text ++ "</span>") ∧
    pango text ⟨none, none, none, none⟩ = "<span >" ++ text ++ "</span>" := by
  constructor
  · cases c <;> cases f <;> cases s <;> cases w <;>
      simp [pango, PangoSpan.render, attrStr, String.join, ← String.append_assoc]
  · simp [pango, PangoSpan.render, attrStr, ← String.append_assoc]

/-! ## Claim C10 -/

theorem infoFold_max (ls : List String) (acc b : brightness.BrightnessInfo)
    (h : brightness.infoFold ls acc = some b)
    (hml : ∀ l ∈ ls, strStartsWith (strTrimLeft l) "Max brightness:" = false) :
    b.max = acc.max := by
  induction ls generalizing acc with
  | nil =>
    simp only [brightness.infoFold, Option.some.injEq] at h
    rw [← h]
  | cons l rest ih =>
    have hl := hml l (List.mem_cons_self l rest)
    have hrest : ∀ x ∈ rest, strStartsWith (strTrimLeft x) "Max brightness:" = false :=
      fun x hx => hml x (List.mem_cons_of_mem l hx)
    simp only [brightness.infoFold] at h
    cases hc : strStartsWith (strTrimLeft l) "Current brightness:" with
    | true =>
      rw [hc] at h
      simp only [if_true] at h
      cases hp : ((splitWs l).get? 2).bind parseU64 with
      | none =>
        rw [hp] at h
        exact absurd h (by simp)
      | some v =>
        rw [hp] at h
        simp only [] at h
        exact ih { current := v, max := acc.max } h hrest
    | false =>
      rw [hc, hl] at h
      simp only [Bool.false_eq_true, if_false] at h
      exact ih _ h hrest

/-- Claim C10, as stated, is false in its "the percentage exceeds 100
whenever current > max" part: at current 201, max 200 the integer percentage
is exactly 100, not more. -/
theorem C10_counterexample :
    brightness.info "Current brightness: 201\nMax brightness: 200" =
      some (brightness.BrightnessInfo.mk 201 200) ∧
    201 > 200 ∧
    (brightness.BrightnessInfo.mk 201 200).pct = 100 ∧
    ¬ (brightness.BrightnessInfo.mk 201 200).pct > 100 :=
  ⟨by decide, by decide, by decide, by decide⟩

/-- Claim C10 (amended): with no `Max brightness:` line the parsed `max`
stays at its default 1 (so it is never 0 by default and the division is
defined), and the percentage — unclamped above — equals `100 * current`
whenever `current * 100` does not overflow u64; in the same no-overflow
regime the percentage is at least (but not always strictly above) 100
whenever `current ≥ max`; and the icon is the final-band glyph for every
percentage of 100 or more. -/
theorem C10_amended :
    (∀ s b, brightness.info s = some b →
      (∀ l ∈ rustLines s, strStartsWith (strTrimLeft l) "Max brightness:" = false) →
      b.max = 1 ∧ (b.current * 100 < 2 ^ 64 → b.pct = 100 * b.current)) ∧
    (∀ b : brightness.BrightnessInfo, 0 < b.max → b.max ≤ b.current →
      b.current * 100 < 2 ^ 64 → 100 ≤ b.pct) ∧
    (∀ b : brightness.BrightnessInfo, 100 ≤ b.pct → b.icon = "🌕") := by
  refine ⟨?_, ?_, ?_⟩
  · intro s b hb hml
    have hmax : b.max = 1 := infoFold_max _ _ _ hb hml
    refine ⟨hmax, fun hov => ?_⟩
    unfold brightness.BrightnessInfo.pct
    rw [hmax, Nat.mod_eq_of_lt hov, Nat.div_one, Nat.mul_comm]
  · intro b hpos hle hov
    unfold brightness.BrightnessInfo.pct
    rw [Nat.mod_eq_of_lt hov, Nat.le_div_iff_mul_le hpos]
    calc 100 * b.max ≤ 100 * b.current := Nat.mul_le_mul_left 100 hle
      _ = b.current * 100 := Nat.mul_comm _ _
  · intro b hge
    unfold brightness.BrightnessInfo.icon
    rw [if_neg (by omega), if_neg (by omega), if_neg (by omega), if_neg (by omega)]

/-- Witness for C10: output with a `Current brightness:` line and no
`Max brightness:` line keeps `max = 1`, the percentage is `100 * current`
(here 500), and the icon is the final-band glyph. -/
theorem C10_witness :
    brightness.info "Current brightness: 5" = some (brightness.BrightnessInfo.mk 5 1) ∧
    (brightness.BrightnessInfo.mk 5 1).max = 1 ∧
    (brightness.BrightnessInfo.mk 5 1).pct = 100 * 5 ∧
    (brightness.BrightnessInfo.mk 5 1).icon = "🌕" :=
  ⟨by decide,
   (C10_amended.1 "Current brightness: 5" (brightness.BrightnessInfo.mk 5 1)
      (by decide) (by decide)).1,
   (C10_amended.1 "Current brightness: 5" (brightness.BrightnessInfo.mk 5 1)
      (by decide) (by decide)).2 (by decide),
   C10_amended.2.2 (brightness.BrightnessInfo.mk 5 1) (by decide)⟩
